import Mathlib

/-!
Verification of the QtAV FFmpeg codec adaptation layer
(src/codec/video/VideoDecoderFFmpegBase.cpp, src/codec/audio/AudioDecoderFFmpeg.cpp,
src/codec/audio/AudioEncoderFFmpeg.cpp) against its natural-language specification.

The C++ sources are shallowly embedded as executable Lean definitions.  FFmpeg
enumerations are embedded as small inductive types carrying exactly the
constructors the adaptation layer inspects; machine integers are modelled as
Int (no overflow is in reach of any claim); qreal/double arithmetic is
modelled by exact rational arithmetic over small integers.
-/

namespace QtAV

/-! ## Color metadata model -/

/-- FFmpeg AVColorRange: unspecified, MPEG (limited/studio swing), JPEG (full swing). -/
inductive AVColorRange
  | unspecified
  | mpeg
  | jpeg
  deriving DecidableEq, Fintype

/-- QtAV internal ColorRange enumeration. -/
inductive ColorRange
  | unknown
  | limited
  | full
  deriving DecidableEq, Fintype

/-- FFmpeg AVColorSpace, restricted to the values the adapter distinguishes. -/
inductive AVColorSpaceFF
  | unspecified
  | bt709ff
  | smpte170m
  deriving DecidableEq, Fintype

/-- QtAV internal ColorSpace enumeration (the constructors this layer can produce). -/
inductive ColorSpace
  | unknown
  | bt601
  | bt709
  | rgbCS
  | gbr
  | xyzCS
  deriving DecidableEq, Fintype

/-- Modelled from the spec: colorRangeFromFFmpeg is declared extern in
VideoDecoderFFmpegBase.cpp and its body is not among the sources; per spec
section 4.1 it is a pure mapping from the external enumeration to the internal
one where unmappable values produce the explicit unknown sentinel. -/
def colorRangeFromFFmpeg : AVColorRange → ColorRange
  | .mpeg => .limited
  | .jpeg => .full
  | .unspecified => .unknown

/-- Modelled from the spec: colorSpaceFromFFmpeg is declared extern in
VideoDecoderFFmpegBase.cpp and its body is not among the sources; per spec
section 4.1 it maps the external color-space enumeration to the internal one,
unmappable values producing the unknown sentinel. -/
def colorSpaceFromFFmpeg : AVColorSpaceFF → ColorSpace
  | .bt709ff => .bt709
  | .smpte170m => .bt601
  | .unspecified => .unknown

/-- FFmpeg AVPixelFormat, restricted to representatives of the classes the
adaptation layer distinguishes: the four JPEG-range (full-swing) planar YUV
formats named in the source, generic limited-range YUV formats, packed RGB
formats, and the XYZ format. -/
inductive AVPixelFormat
  | yuvj420p
  | yuvj422p
  | yuvj440p
  | yuvj444p
  | yuv420p
  | yuv422p
  | yuv444p
  | rgb24
  | bgra
  | xyz12le
  deriving DecidableEq, Fintype

/-- Modelled from the spec: VideoFormat::isRGB is not among the sources; it
holds exactly for the RGB-family pixel formats (spec section 4.1 domain
default: RGB vs YUV vs XYZ classes). -/
def AVPixelFormat.isRGB : AVPixelFormat → Bool
  | .rgb24 => true
  | .bgra => true
  | _ => false

/-- Modelled from the spec: VideoFormat::isXYZ is not among the sources; it
holds exactly for the XYZ pixel format. -/
def AVPixelFormat.isXYZ : AVPixelFormat → Bool
  | .xyz12le => true
  | _ => false

/-- Modelled from the spec: VideoFormat::isPlanar is not among the sources; of
the formats modelled here the YUV family is planar and the packed RGB/XYZ
representatives are not.  Only the hardware-path color-space selection in
updateColorDetails consults it. -/
def AVPixelFormat.isPlanar : AVPixelFormat → Bool
  | .rgb24 => false
  | .bgra => false
  | .xyz12le => false
  | _ => true

/-- The switch over frame->format at VideoDecoderFFmpegBase.cpp lines 42-52:
the JPEG-range ("yuvj") pixel formats for which the decoder forces full range
when the frame-level range metadata is unknown. -/
def isJpegRangeYUV : AVPixelFormat → Bool
  | .yuvj420p => true
  | .yuvj422p => true
  | .yuvj440p => true
  | .yuvj444p => true
  | _ => false

/-- SetColorDetailsByFFmpeg (VideoDecoderFFmpegBase.cpp lines 31-67), as the
pair (color space, color range) stored into the VideoFrame.  framePix is
frame->format (used by the yuvj switch); fPix is the VideoFrame format f->format()
(used by the isXYZ/isRGB domain default).  The source calls f->setColorSpace(cs)
at line 37, before the range logic, so the later local assignment
cs = ColorSpace_XYZ at line 59 is a dead store (its own comment says "not here");
the stored color space is the one computed from the two colorspace fields alone. -/
def SetColorDetailsByFFmpeg (framePix fPix : AVPixelFormat)
    (frameCS ctxCS : AVColorSpaceFF) (frameRange ctxRange : AVColorRange) :
    ColorSpace × ColorRange :=
  let cs0 := colorSpaceFromFFmpeg frameCS
  let cs := if cs0 = ColorSpace.unknown then colorSpaceFromFFmpeg ctxCS else cs0
  let cr0 := colorRangeFromFFmpeg frameRange
  let cr1 :=
    if cr0 = ColorRange.unknown ∧ isJpegRangeYUV framePix then ColorRange.full else cr0
  let cr2 :=
    if cr1 = ColorRange.unknown then
      let c := colorRangeFromFFmpeg ctxRange
      if c = ColorRange.unknown then
        if fPix.isXYZ then ColorRange.full
        else if ¬ fPix.isRGB then ColorRange.limited
        else c
      else c
    else cr1
  (cs, cr2)

/-- The color-range resolution chain in the order claim C1 states it:
frame metadata, then codec-context metadata, then the JPEG-range pixel-format
heuristic, then the domain default (limited for YUV, full for RGB/XYZ).
This follows the claim wording, to be compared with the source function. -/
def claimRangeChain (pixfmt : AVPixelFormat)
    (frameRange ctxRange : AVColorRange) : ColorRange :=
  if colorRangeFromFFmpeg frameRange ≠ ColorRange.unknown then
    colorRangeFromFFmpeg frameRange
  else if colorRangeFromFFmpeg ctxRange ≠ ColorRange.unknown then
    colorRangeFromFFmpeg ctxRange
  else if isJpegRangeYUV pixfmt then ColorRange.full
  else if pixfmt.isRGB ∨ pixfmt.isXYZ then ColorRange.full
  else ColorRange.limited

/-- The color-range resolution chain as amended: frame metadata, then the
JPEG-range pixel-format heuristic, then codec-context metadata, then the
domain default, which is full for XYZ, limited for every non-RGB non-XYZ
format, and leaves the range unknown for RGB formats. -/
def amendedRangeChain (pixfmt : AVPixelFormat)
    (frameRange ctxRange : AVColorRange) : ColorRange :=
  if colorRangeFromFFmpeg frameRange ≠ ColorRange.unknown then
    colorRangeFromFFmpeg frameRange
  else if isJpegRangeYUV pixfmt then ColorRange.full
  else if colorRangeFromFFmpeg ctxRange ≠ ColorRange.unknown then
    colorRangeFromFFmpeg ctxRange
  else if pixfmt.isXYZ then ColorRange.full
  else if ¬ pixfmt.isRGB then ColorRange.limited
  else ColorRange.unknown

/-- VideoDecoderFFmpegBasePrivate::updateColorDetails (lines 69-94), as the
pair (color space, color range) stored into the VideoFrame.  fPix is the
VideoFrame format, w and h its dimensions, framePix is frame->format, ctxPix
is codec_ctx->pix_fmt (whose descriptor flags decide the rgb_coded branch,
modelled by isRGB of the format). -/
def updateColorDetails (fPix : AVPixelFormat) (w h : Int)
    (framePix ctxPix : AVPixelFormat)
    (frameCS ctxCS : AVColorSpaceFF) (frameRange ctxRange : AVColorRange) :
    ColorSpace × ColorRange :=
  if fPix = framePix then
    SetColorDetailsByFFmpeg framePix fPix frameCS ctxCS frameRange ctxRange
  else if fPix.isRGB then
    ((if fPix.isPlanar then ColorSpace.gbr else ColorSpace.rgbCS), ColorRange.full)
  else if ctxPix.isRGB then
    ((if 1280 ≤ w ∧ 576 ≤ h then ColorSpace.bt709 else ColorSpace.bt601),
      ColorRange.limited)
  else
    SetColorDetailsByFFmpeg framePix fPix frameCS ctxCS frameRange ctxRange

/-! ## Display aspect ratio -/

/-- FFmpeg AVRational. -/
structure AVRational where
  num : Int
  den : Int
  deriving DecidableEq

/-- FFmpeg av_q2d: the rational as a real number.  The source computes in
double; the values in reach here are exact small-integer quotients, modelled
by exact rational arithmetic. -/
def av_q2d (r : AVRational) : ℚ :=
  (r.num : ℚ) / (r.den : ℚ)

/-- The AVFrame fields getDAR consults. -/
structure DARFrame where
  width : Int
  height : Int
  sar : AVRational
  deriving DecidableEq

/-- VideoDecoderFFmpegBasePrivate::getDAR (lines 96-108).  ctxSar is
codec_ctx->sample_aspect_ratio (none when codec_ctx is null). -/
def getDAR (ctxSar : Option AVRational) (f : DARFrame) : ℚ :=
  let dar : ℚ := if 0 < f.height then (f.width : ℚ) / (f.height : ℚ) else 0
  if 1 < f.sar.num then dar * av_q2d f.sar
  else
    match ctxSar with
    | some c => if 1 < c.num then dar * av_q2d c else dar
    | none => dar

/-! ## Decoder frame() conversion -/

/-- The AVFrame fields the video frame() conversion reads. -/
structure AVFrameV where
  width : Int
  height : Int
  format : AVPixelFormat
  sar : AVRational
  colorspaceF : AVColorSpaceFF
  colorRangeF : AVColorRange
  bestEffortTs : Int
  deriving DecidableEq

/-- The codec-context fields the video frame() conversion reads. -/
structure VCodecCtx where
  pixfmt : AVPixelFormat
  sar : AVRational
  colorspaceF : AVColorSpaceFF
  colorRangeF : AVColorRange
  deriving DecidableEq

/-- The internal VideoFrame, restricted to the fields this layer sets.  A
default-constructed value is the empty/invalid sentinel VideoFrame(). -/
structure VideoFrame where
  width : Int := 0
  height : Int := 0
  pixfmt : Option AVPixelFormat := none
  dar : ℚ := 0
  timestamp : ℚ := 0
  colorSpace : ColorSpace := ColorSpace.unknown
  colorRange : ColorRange := ColorRange.unknown
  deriving DecidableEq

/-- The empty/invalid sentinel VideoFrame(). -/
def VideoFrame.empty : VideoFrame := {}

/-- VideoDecoderFFmpegBase::frame() (lines 158-176).  Returns the sentinel
when the retrieved frame has unresolved dimensions or there is no codec
context; otherwise builds the frame from the stored AVFrame and context.
The raw buffer pointers, strides and the palette/avbuf metadata entries are
opaque memory and are not modelled.  The function is total: invalidity is a
value, never a failure. -/
def videoFrameOf (frame : AVFrameV) (ctx : Option VCodecCtx) : VideoFrame :=
  match ctx with
  | none => VideoFrame.empty
  | some c =>
    if frame.width ≤ 0 ∨ frame.height ≤ 0 then VideoFrame.empty
    else
      let csr := updateColorDetails c.pixfmt frame.width frame.height
        frame.format c.pixfmt frame.colorspaceF c.colorspaceF
        frame.colorRangeF c.colorRangeF
      { width := frame.width
        height := frame.height
        pixfmt := some c.pixfmt
        dar := getDAR (some c.sar) ⟨frame.width, frame.height, frame.sar⟩
        timestamp := (frame.bestEffortTs : ℚ) / 1000
        colorSpace := csr.1
        colorRange := csr.2 }

/-- The AVFrame fields the audio frame() conversion reads. -/
structure AVFrameA where
  format : Int
  channelLayout : Int
  sampleRate : Int
  nbSamples : Int
  linesize0 : Int
  bestEffortTs : Int
  deriving DecidableEq

/-- The internal AudioFormat as filled from FFmpeg fields by frame():
setSampleFormatFFmpeg, setChannelLayoutFFmpeg, setSampleRate.  A
default-constructed value (sample format AV_SAMPLE_FMT_NONE = -1, zero
channel layout, zero rate) is invalid. -/
structure AudioFormatFF where
  sampleFormatFF : Int := -1
  channelLayoutFF : Int := 0
  sampleRate : Int := 0
  deriving DecidableEq

/-- Modelled from the spec: AudioFormat::isValid is not among the sources;
per the spec a format is valid when sample format, channel layout and sample
rate are all resolved. -/
def AudioFormatFF.isValid (f : AudioFormatFF) : Prop :=
  f.sampleFormatFF ≠ -1 ∧ f.channelLayoutFF ≠ 0 ∧ 0 < f.sampleRate

instance : DecidablePred AudioFormatFF.isValid := fun f => by
  unfold AudioFormatFF.isValid
  infer_instance

/-- The internal AudioFrame, restricted to the fields this layer sets.  A
default-constructed value is the empty/invalid sentinel AudioFrame(). -/
structure AudioFrame where
  fmt : AudioFormatFF := {}
  bytesPerLine0 : Int := 0
  samplesPerChannel : Int := 0
  timestamp : ℚ := 0
  deriving DecidableEq

/-- The empty/invalid sentinel AudioFrame(). -/
def AudioFrame.empty : AudioFrame := {}

/-- AudioDecoderFFmpeg::frame() (AudioDecoderFFmpeg.cpp lines 162-181).
Builds an AudioFormat from the stored AVFrame fields; when that format is not
valid (more data is needed to decode a frame) the sentinel is returned.  The
function is total: invalidity is a value, never a failure. -/
def audioFrameOf (fr : AVFrameA) : AudioFrame :=
  let fmt : AudioFormatFF :=
    { sampleFormatFF := fr.format
      channelLayoutFF := fr.channelLayout
      sampleRate := fr.sampleRate }
  if ¬ fmt.isValid then AudioFrame.empty
  else
    { fmt := fmt
      bytesPerLine0 := fr.linesize0
      samplesPerChannel := fr.nbSamples
      timestamp := (fr.bestEffortTs : ℚ) / 1000 }

/-! ## Decode drivers

The send/receive protocol of the external library is made explicit: the
result of avcodec_send_packet is an Int return code (negative means failure)
and the result of avcodec_receive_frame / avcodec_receive_packet is one of
EAGAIN, AVERROR_EOF, another error, or success.  Each decode/encode call is a
function of those external results; the inductive exit type labels the
source's distinct return statements, and toBool is the C bool actually
returned to the caller. -/

/-- Result of an avcodec_receive_frame / avcodec_receive_packet call. -/
inductive RecvResult
  | eagain
  | eofR
  | errR (code : Int)
  | ok
  deriving DecidableEq

/-- The distinct exit points of VideoDecoderFFmpegBase::decode (lines 115-156). -/
inductive VideoDecodeExit
  | notAvailable
  | sendError
  | noFrame (ret : Bool)
  | recvError
  | badDims
  | gotFrame
  deriving DecidableEq

/-- The C bool VideoDecoderFFmpegBase::decode returns at each exit. -/
def VideoDecodeExit.toBool : VideoDecodeExit → Bool
  | .noFrame b => b
  | .gotFrame => true
  | _ => false

/-- VideoDecoderFFmpegBase::decode (lines 115-156).  isEOF is
packet.isEOF(); sendRet the avcodec_send_packet return (an EOF packet sends a
null flush packet, a normal packet its AVPacket); recv the
avcodec_receive_frame result; ctxW/ctxH the codec context dimensions checked
at line 148 (C truthiness: zero is false). -/
def videoDecode (available isEOF : Bool) (sendRet : Int) (recv : RecvResult)
    (ctxW ctxH : Int) : VideoDecodeExit :=
  if ¬ available then .notAvailable
  else if sendRet < 0 then .sendError
  else
    match recv with
    | .eagain => .noFrame (! isEOF)
    | .eofR => .noFrame (! isEOF)
    | .errR _ => .recvError
    | .ok => if ctxW = 0 ∨ ctxH = 0 then .badDims else .gotFrame

/-- The distinct exit points of AudioDecoderFFmpeg::decode (lines 91-159).
The USE_AUDIO_FRAME build configuration is in effect (frames are exposed via
frame(), not via the resampler), so a successful receive returns true at line
148. -/
inductive AudioDecodeExit
  | notAvailable
  | sendError
  | needMore
  | drainedEnd
  | recvError
  | gotFrame
  deriving DecidableEq

/-- The C bool AudioDecoderFFmpeg::decode returns at each exit. -/
def AudioDecodeExit.toBool : AudioDecodeExit → Bool
  | .gotFrame => true
  | _ => false

/-- AudioDecoderFFmpeg::decode (lines 91-159).  An EOF packet sends a
null-data flush packet, a normal packet its AVPacket; in both cases a
negative send return is a hard failure at that call.  The receive result is
then mapped: EAGAIN means more data is needed, AVERROR_EOF means decoding has
ended, another negative return is a hard failure, success yields a frame.
Unlike the video decoder the returned bool does not consult packet.isEOF()
on the no-frame paths (the only use, at line 144, is dead code behind
got_frame_ptr = 1); the flag is kept as a parameter to mirror the call. -/
def audioDecode (available _isEOF : Bool) (sendRet : Int) (recv : RecvResult) :
    AudioDecodeExit :=
  if ¬ available then .notAvailable
  else if sendRet < 0 then .sendError
  else
    match recv with
    | .eagain => .needMore
    | .eofR => .drainedEnd
    | .errR _ => .recvError
    | .ok => .gotFrame

/-! ## Encoder: format negotiation at open -/

/-- The internal sample-format value as the negotiation code manipulates it:
the unknown sentinel, the 16-bit-signed default set by setSampleFormat, or a
value set from an FFmpeg enum by setSampleFormatFFmpeg. -/
inductive SampleFormat
  | unknown
  | s16
  | ff (v : Int)
  deriving DecidableEq

/-- The internal channel-layout value as the negotiation code manipulates it:
the unsupported sentinel, the stereo default set by setChannelLayout, or a
value set from an FFmpeg layout by setChannelLayoutFFmpeg. -/
inductive ChannelLayout
  | unsupported
  | stereo
  | ff (v : Int)
  deriving DecidableEq

/-- The caller-visible AudioFormat fields AudioEncoderFFmpegPrivate::open
negotiates. -/
structure AudioFormat where
  sampleRate : Int
  sampleFormat : SampleFormat
  channelLayout : ChannelLayout
  deriving DecidableEq

/-- The encoder capability lists (AVCodec::supported_samplerates,
sample_fmts, channel_layouts).  A null list pointer is modelled as []; the
source reads only element 0 of a non-null list. -/
structure ACodec where
  supported_samplerates : List Int
  sample_fmts : List Int
  channel_layouts : List Int
  deriving DecidableEq

/-- The format negotiation of AudioEncoderFFmpegPrivate::open
(AudioEncoderFFmpeg.cpp lines 92-122): format_used starts as the caller's
format; each of sample rate, sample format and channel layout that the caller
left unspecified (rate at most 0, unknown sample format, unsupported channel
layout) is taken from the first entry of the codec's advertised list, or from
the documented default (44100, signed 16-bit, stereo) when the codec
advertises none. -/
def negotiateFormat (codec : ACodec) (format : AudioFormat) : AudioFormat :=
  let fu := format
  let fu :=
    if format.sampleRate ≤ 0 then
      match codec.supported_samplerates with
      | r :: _ => { fu with sampleRate := r }
      | [] => { fu with sampleRate := 44100 }
    else fu
  let fu :=
    if format.sampleFormat = SampleFormat.unknown then
      match codec.sample_fmts with
      | f :: _ => { fu with sampleFormat := SampleFormat.ff f }
      | [] => { fu with sampleFormat := SampleFormat.s16 }
    else fu
  let fu :=
    if format.channelLayout = ChannelLayout.unsupported then
      match codec.channel_layouts with
      | c :: _ => { fu with channelLayout := ChannelLayout.ff c }
      | [] => { fu with channelLayout := ChannelLayout.stereo }
    else fu
  fu

/-! ## Encoder: working buffer sizing at open -/

/-- FFmpeg constant AV_INPUT_BUFFER_MIN_SIZE. -/
def AV_INPUT_BUFFER_MIN_SIZE : Int := 16384

/-- The buffer sizing block of AudioEncoderFFmpegPrivate::open (lines
142-156), returning (frame_size, buffer_size).  ctxFrameSize is
avctx->frame_size after avcodec_open2; codecBitsPerSample is
av_get_bits_per_sample(avctx->codec_id) (0 for non-raw-PCM codecs);
bytesPerSample and channels come from format_used.  When the codec reports a
frame size of at most 1 and has a raw-PCM sample size, frame_size is forced
to 16384 and the raw-PCM byte size is used; the result is floored at
AV_INPUT_BUFFER_MIN_SIZE. -/
def bufferSizing (ctxFrameSize codecBitsPerSample bytesPerSample channels : Int) :
    Int × Int :=
  let frame_size := ctxFrameSize
  let pcm_hack := if frame_size ≤ 1 then codecBitsPerSample / 8 else 0
  if pcm_hack ≠ 0 then
    let fs := (16384 : Int)
    let buffer_size := fs * pcm_hack * channels * 2 + 200
    (fs, max buffer_size AV_INPUT_BUFFER_MIN_SIZE)
  else
    let buffer_size := frame_size * bytesPerSample * channels * 2 + 200
    (frame_size, max buffer_size AV_INPUT_BUFFER_MIN_SIZE)

/-- The buffer size as claim C8 words it: frame_size × bytes-per-sample ×
channels × 2 + 200, with frame_size forced to 16384 and bytes-per-sample
taken from the codec's raw-PCM sample size when the codec reports
frame_size ≤ 1, floored at AV_INPUT_BUFFER_MIN_SIZE.  This follows the claim
wording, to be compared with the source computation. -/
def claimBufferSize (ctxFrameSize codecBitsPerSample bytesPerSample channels : Int) :
    Int :=
  let fs := if ctxFrameSize ≤ 1 then (16384 : Int) else ctxFrameSize
  let bps := if ctxFrameSize ≤ 1 then codecBitsPerSample / 8 else bytesPerSample
  max (fs * bps * channels * 2 + 200) AV_INPUT_BUFFER_MIN_SIZE

/-! ## Encoder: encode() driver -/

/-- The distinct exit points of AudioEncoderFFmpeg::encode (lines 177-254). -/
inductive EncodeExit
  | allocFail
  | sendError
  | needMoreFrames (ret : Bool)
  | drainedE
  | recvError
  | gotPacket
  deriving DecidableEq

/-- The C bool AudioEncoderFFmpeg::encode returns at each exit. -/
def EncodeExit.toBool : EncodeExit → Bool
  | .needMoreFrames b => b
  | .gotPacket => true
  | _ => false

/-- The effect of an encode call on the stored packet d.packet: left
unchanged (early failure returns), cleared to the empty Packet() (EAGAIN and
AVERROR_EOF at lines 236 and 241), or filled from the received packet (line
249). -/
inductive PacketSlot
  | unchanged
  | cleared
  | filled
  deriving DecidableEq

/-- AudioEncoderFFmpeg::encode (lines 177-254) as a function of the frame's
validity, the success of the transient AVFrame allocation (consulted only for
a valid frame), the avcodec_send_frame return (a valid frame sends the
transient frame, an invalid frame sends null to signal EOF) and the
avcodec_receive_packet result.  Returns the exit taken and the effect on the
stored packet. -/
def encodeStep (frameValid allocOk : Bool) (sendRet : Int) (recv : RecvResult) :
    EncodeExit × PacketSlot :=
  if frameValid && ! allocOk then (.allocFail, .unchanged)
  else if sendRet < 0 then (.sendError, .unchanged)
  else
    match recv with
    | .eagain => (.needMoreFrames frameValid, .cleared)
    | .eofR => (.drainedE, .cleared)
    | .errR _ => (.recvError, .unchanged)
    | .ok => (.gotPacket, .filled)

/-! ## Encoder: the transient AVFrame built for a valid input frame -/

/-- The caller's AudioFrame fields encode reads, together with the accessors
of its AudioFormat.  samplesPerChannel is carried to state that encode never
consults it. -/
structure AudioFrameIn where
  fmtSampleFormatFF : Int
  fmtChannelLayoutFF : Int
  fmtSampleRate : Int
  fmtChannels : Int
  fmtBytesPerSample : Int
  fmtIsPlanar : Bool
  planeCount : Nat
  samplesPerChannel : Int
  timestamp : ℚ
  deriving DecidableEq

/-- The per-sample stride used for linesize (line 196): bytes per sample for
planar formats, bytes per sample times channels for packed ones. -/
def encSampleStride (fr : AudioFrameIn) : Int :=
  if fr.fmtIsPlanar then fr.fmtBytesPerSample
  else fr.fmtBytesPerSample * fr.fmtChannels

/-- Truncation toward zero, as the C cast int64_t(double) at line 193. -/
def ratTrunc (q : ℚ) : Int :=
  if 0 ≤ q then ⌊q⌋ else -⌊-q⌋

/-- The transient AVFrame fields encode fills (lines 182-205).  The per-plane
data pointers are opaque memory and are not modelled. -/
structure TransientAVFrame where
  format : Int
  channelLayout : Int
  nbSamples : Int
  pts : Int
  linesize : List Int
  sampleRate : Int
  channels : Int
  deriving DecidableEq

/-- The transient AVFrame built by AudioEncoderFFmpeg::encode for a valid
input frame (lines 182-205): nb_samples is the encoder's negotiated
frame_size, pts is timestamp × sample rate truncated to int64, and every
plane's linesize is nb_samples × sample stride. -/
def buildEncFrame (frame_size : Int) (fr : AudioFrameIn) : TransientAVFrame :=
  { format := fr.fmtSampleFormatFF
    channelLayout := fr.fmtChannelLayoutFF
    nbSamples := frame_size
    pts := ratTrunc (fr.timestamp * (fr.fmtSampleRate : ℚ))
    linesize := List.replicate fr.planeCount (frame_size * encSampleStride fr)
    sampleRate := fr.fmtSampleRate
    channels := fr.fmtChannels }

/-! ## Claims -/

/-- Claim C1, counterexample: the claimed fallback order (frame metadata,
then codec-context metadata, then the pixel-format heuristic, then the
domain default) disagrees with the source.  For a frame in YUVJ420P whose
frame-level range is unspecified while the codec context says MPEG/limited,
the source resolves full range (the JPEG-range heuristic runs before the
context is consulted), whereas the claimed chain resolves limited. -/
theorem c1_fallback_order_counterexample :
    (SetColorDetailsByFFmpeg AVPixelFormat.yuvj420p AVPixelFormat.yuvj420p
      AVColorSpaceFF.unspecified AVColorSpaceFF.unspecified
      AVColorRange.unspecified AVColorRange.mpeg).2 = ColorRange.full ∧
    claimRangeChain AVPixelFormat.yuvj420p
      AVColorRange.unspecified AVColorRange.mpeg = ColorRange.limited ∧
    (SetColorDetailsByFFmpeg AVPixelFormat.yuvj420p AVPixelFormat.yuvj420p
      AVColorSpaceFF.unspecified AVColorSpaceFF.unspecified
      AVColorRange.unspecified AVColorRange.mpeg).2 ≠
      claimRangeChain AVPixelFormat.yuvj420p
        AVColorRange.unspecified AVColorRange.mpeg := by
  decide

/-- Claim C1 as amended: for every decoded frame the color range is resolved
by the fallback chain frame-level metadata, then the JPEG-range pixel-format
heuristic, then codec-context-level metadata, then the domain default (full
for XYZ, limited for every non-RGB non-XYZ format, unknown for RGB). -/
theorem c1_fallback_order :
    ∀ (pix : AVPixelFormat) (fcs ccs : AVColorSpaceFF) (fr cr : AVColorRange),
      (SetColorDetailsByFFmpeg pix pix fcs ccs fr cr).2 =
        amendedRangeChain pix fr cr := by
  decide

/-- Claim C2, counterexample: with frame-level and context-level range both
unknown, an RGB frame does not resolve to full range as claimed; the source
leaves the range unknown (only the XYZ branch sets full, and the limited
branch fires only for non-RGB formats). -/
theorem c2_range_classes_counterexample :
    (SetColorDetailsByFFmpeg AVPixelFormat.rgb24 AVPixelFormat.rgb24
      AVColorSpaceFF.unspecified AVColorSpaceFF.unspecified
      AVColorRange.unspecified AVColorRange.unspecified).2 = ColorRange.unknown ∧
    (SetColorDetailsByFFmpeg AVPixelFormat.rgb24 AVPixelFormat.rgb24
      AVColorSpaceFF.unspecified AVColorSpaceFF.unspecified
      AVColorRange.unspecified AVColorRange.unspecified).2 ≠ ColorRange.full := by
  decide

/-- Claim C2 as amended: with frame-level and context-level range metadata
both unknown, a JPEG-range YUV sub-variant resolves to full, an XYZ frame
resolves to full, a generic (non-RGB, non-XYZ) YUV frame resolves to
limited, and an RGB frame is left with unknown range. -/
theorem c2_range_classes :
    ∀ (pix : AVPixelFormat) (fcs ccs : AVColorSpaceFF),
      (SetColorDetailsByFFmpeg pix pix fcs ccs
        AVColorRange.unspecified AVColorRange.unspecified).2 =
        (if isJpegRangeYUV pix then ColorRange.full
         else if pix.isXYZ then ColorRange.full
         else if pix.isRGB then ColorRange.unknown
         else ColorRange.limited) := by
  decide

/-- Claim C3, counterexample: the source selects the frame-level
sample-aspect-ratio only when its numerator exceeds 1, not whenever the
ratio is non-square.  With frame-level SAR 1/2 (non-square) and context
SAR 3/1 on a 2x1 frame, the source multiplies by the context SAR and yields
6, not the claimed width/height x frame SAR = 1. -/
theorem c3_dar_counterexample :
    getDAR (some ⟨3, 1⟩) ⟨2, 1, ⟨1, 2⟩⟩ = 6 ∧
    av_q2d (⟨1, 2⟩ : AVRational) ≠ 1 ∧
    (2 : ℚ) / (1 : ℚ) * av_q2d (⟨1, 2⟩ : AVRational) = 1 ∧
    (6 : ℚ) ≠ 1 := by
  refine ⟨?_, by norm_num [av_q2d], by norm_num [av_q2d], by norm_num⟩
  norm_num [getDAR, av_q2d]

/-- Claim C3 as amended: for a frame of positive height the display aspect
ratio multiplies width/height by the frame-level sample-aspect-ratio exactly
when that ratio's numerator exceeds 1; only otherwise, and only when the
context-level ratio's numerator exceeds 1, is the context-level ratio used;
with neither, the ratio is width/height.  In particular with frame-level SAR
2/1 and context-level SAR 1/1 the result is (width/height) x 2. -/
theorem c3_dar_selection (ctxSar : AVRational) (f : DARFrame)
    (hh : 0 < f.height) :
    (1 < f.sar.num →
      getDAR (some ctxSar) f = (f.width : ℚ) / (f.height : ℚ) * av_q2d f.sar) ∧
    (f.sar.num ≤ 1 → 1 < ctxSar.num →
      getDAR (some ctxSar) f = (f.width : ℚ) / (f.height : ℚ) * av_q2d ctxSar) ∧
    (f.sar.num ≤ 1 → ctxSar.num ≤ 1 →
      getDAR (some ctxSar) f = (f.width : ℚ) / (f.height : ℚ)) ∧
    (f.sar = ⟨2, 1⟩ → ctxSar = ⟨1, 1⟩ →
      getDAR (some ctxSar) f = (f.width : ℚ) / (f.height : ℚ) * 2) := by
  refine ⟨?_, ?_, ?_, ?_⟩
  · intro h1
    simp [getDAR, hh, h1]
  · intro h1 h2
    simp [getDAR, hh, not_lt.mpr h1, h2]
  · intro h1 h2
    simp [getDAR, hh, not_lt.mpr h1, not_lt.mpr h2]
  · intro h1 h2
    norm_num [getDAR, hh, h1, h2, av_q2d]

/-- Witness for c3_dar_selection at a 4x3 frame with frame-level SAR 2/1 and
context-level SAR 1/1. -/
theorem c3_dar_selection_witness :
    getDAR (some ⟨1, 1⟩) ⟨4, 3, ⟨2, 1⟩⟩ = (4 : ℚ) / (3 : ℚ) * 2 :=
  (c3_dar_selection ⟨1, 1⟩ ⟨4, 3, ⟨2, 1⟩⟩ (by norm_num)).2.2.2 rfl rfl

/-- Claim C4: frame() on a decoder whose retrieved frame has unresolved
dimensions or format returns the empty/invalid sentinel frame (both functions
are total, so this is never signalled as a failure), and a non-sentinel video
frame is returned only when width and height are both positive. -/
theorem c4_invalid_sentinel (frame : AVFrameV) (ctx : Option VCodecCtx)
    (af : AVFrameA) :
    ((frame.width ≤ 0 ∨ frame.height ≤ 0 ∨ ctx = none) →
      videoFrameOf frame ctx = VideoFrame.empty) ∧
    (videoFrameOf frame ctx ≠ VideoFrame.empty →
      0 < frame.width ∧ 0 < frame.height ∧
      (videoFrameOf frame ctx).width = frame.width ∧
      (videoFrameOf frame ctx).height = frame.height) ∧
    ((¬ (AudioFormatFF.mk af.format af.channelLayout af.sampleRate).isValid) →
      audioFrameOf af = AudioFrame.empty) ∧
    (audioFrameOf af ≠ AudioFrame.empty → (audioFrameOf af).fmt.isValid) := by
  refine ⟨?_, ?_, ?_, ?_⟩
  · intro h
    match ctx with
    | none => simp [videoFrameOf]
    | some c =>
      rcases h with h | h | h
      · simp [videoFrameOf, Or.inl h]
      · simp [videoFrameOf, Or.inr h]
      · exact absurd h (by simp)
  · intro h
    match ctx with
    | none => exact absurd rfl h
    | some c =>
      by_cases hd : frame.width ≤ 0 ∨ frame.height ≤ 0
      · exact absurd (by simp [videoFrameOf, hd]) h
      · push_neg at hd
        refine ⟨hd.1, hd.2, ?_, ?_⟩ <;>
          simp [videoFrameOf, not_or.mpr ⟨not_le.mpr hd.1, not_le.mpr hd.2⟩]
  · intro h
    simp [audioFrameOf, h]
  · intro h
    by_cases hv : (AudioFormatFF.mk af.format af.channelLayout af.sampleRate).isValid
    · simp [audioFrameOf, hv]
    · exact absurd (by simp [audioFrameOf, hv]) h

/-- Witness for c4_invalid_sentinel: a zero-sized video frame and an audio
frame with no sample format both yield the sentinel. -/
theorem c4_invalid_sentinel_witness :
    videoFrameOf ⟨0, 0, AVPixelFormat.yuv420p, ⟨0, 1⟩, AVColorSpaceFF.unspecified,
      AVColorRange.unspecified, 0⟩ (some ⟨AVPixelFormat.yuv420p, ⟨0, 1⟩,
      AVColorSpaceFF.unspecified, AVColorRange.unspecified⟩) = VideoFrame.empty ∧
    audioFrameOf ⟨-1, 0, 0, 0, 0, 0⟩ = AudioFrame.empty := by
  constructor
  · exact (c4_invalid_sentinel ⟨0, 0, AVPixelFormat.yuv420p, ⟨0, 1⟩,
      AVColorSpaceFF.unspecified, AVColorRange.unspecified, 0⟩
      (some ⟨AVPixelFormat.yuv420p, ⟨0, 1⟩, AVColorSpaceFF.unspecified,
        AVColorRange.unspecified⟩) ⟨-1, 0, 0, 0, 0, 0⟩).1 (Or.inl (by norm_num))
  · exact (c4_invalid_sentinel ⟨0, 0, AVPixelFormat.yuv420p, ⟨0, 1⟩,
      AVColorSpaceFF.unspecified, AVColorRange.unspecified, 0⟩ none
      ⟨-1, 0, 0, 0, 0, 0⟩).2.2.1 (by decide)

/-- Claim C5: for an end-of-stream packet whose flush submission succeeds
(non-negative send return), neither decoder takes a hard-failure exit merely
because the flush was accepted: when the library reports no frame (EAGAIN) or
drained (AVERROR_EOF) the video decoder takes the no-frame exit returning
false and the audio decoder exits with needs-more or drained, and a
hard-failure retrieval exit occurs only when the library actually returned a
distinct error code. -/
theorem c5_flush_not_failure (sendRet : Int) (hs : 0 ≤ sendRet)
    (recv : RecvResult) (ctxW ctxH : Int) :
    (recv = RecvResult.eagain ∨ recv = RecvResult.eofR →
      videoDecode true true sendRet recv ctxW ctxH = VideoDecodeExit.noFrame false ∧
      (audioDecode true true sendRet recv = AudioDecodeExit.needMore ∨
        audioDecode true true sendRet recv = AudioDecodeExit.drainedEnd)) ∧
    videoDecode true true sendRet recv ctxW ctxH ≠ VideoDecodeExit.sendError ∧
    audioDecode true true sendRet recv ≠ AudioDecodeExit.sendError ∧
    (videoDecode true true sendRet recv ctxW ctxH = VideoDecodeExit.recvError →
      ∃ c, recv = RecvResult.errR c) ∧
    (audioDecode true true sendRet recv = AudioDecodeExit.recvError →
      ∃ c, recv = RecvResult.errR c) := by
  have hns : ¬ sendRet < 0 := not_lt.mpr hs
  refine ⟨?_, ?_, ?_, ?_, ?_⟩ <;>
    cases recv <;>
      by_cases h0 : ctxW = 0 ∨ ctxH = 0 <;>
        simp [videoDecode, audioDecode, hns, h0]

/-- Witness for c5_flush_not_failure: an accepted flush followed by EAGAIN is
the no-frame exit returning false. -/
theorem c5_flush_not_failure_witness :
    videoDecode true true 0 RecvResult.eagain 0 0 = VideoDecodeExit.noFrame false ∧
    (audioDecode true true 0 RecvResult.eagain = AudioDecodeExit.needMore ∨
      audioDecode true true 0 RecvResult.eagain = AudioDecodeExit.drainedEnd) :=
  (c5_flush_not_failure 0 (le_refl 0) RecvResult.eagain 0 0).1 (Or.inl rfl)

/-- Claim C6, counterexample: the caller of AudioDecoderFFmpeg::decode
receives only the C bool, and that bool is false alike for the transient
needs-more-input condition (EAGAIN), the terminal drained condition
(AVERROR_EOF) and a hard retrieval failure, so the three outcomes are not
distinguishable from the returned value. -/
theorem c6_discrimination_counterexample :
    (audioDecode true false 0 RecvResult.eagain).toBool = false ∧
    (audioDecode true false 0 RecvResult.eofR).toBool = false ∧
    (audioDecode true false 0 (RecvResult.errR (-22))).toBool = false ∧
    (audioDecode true false 0 RecvResult.eagain).toBool =
      (audioDecode true false 0 (RecvResult.errR (-22))).toBool := by
  decide

/-- Claim C6 as amended: decode() and encode() return a single boolean, not
a discriminated outcome.  The bool is true on progress (a decoded frame, an
encoded packet, or an encoder needs-more after a valid submission, or the
video decoder's no-frame exit on a non-EOF packet), while the audio decoder
maps transient, terminal and hard-failure outcomes all to false and the
encoder maps terminal and hard-failure outcomes both to false; the three
non-success conditions are therefore reported to the caller only through the
log, not through the returned value. -/
theorem c6_boolean_outcome (sendRet : Int) (hs : 0 ≤ sendRet) (code : Int) :
    (audioDecode true false sendRet RecvResult.eagain).toBool = false ∧
    (audioDecode true false sendRet RecvResult.eofR).toBool = false ∧
    (audioDecode true false sendRet (RecvResult.errR code)).toBool = false ∧
    (audioDecode true false sendRet RecvResult.ok).toBool = true ∧
    (encodeStep true true sendRet RecvResult.eofR).1.toBool = false ∧
    (encodeStep true true sendRet (RecvResult.errR code)).1.toBool = false ∧
    (encodeStep true true sendRet RecvResult.eagain).1.toBool = true ∧
    (encodeStep true true sendRet RecvResult.ok).1.toBool = true ∧
    (videoDecode true false sendRet RecvResult.eagain 1 1).toBool = true := by
  have hns : ¬ sendRet < 0 := not_lt.mpr hs
  simp [audioDecode, encodeStep, videoDecode, hns,
    AudioDecodeExit.toBool, EncodeExit.toBool, VideoDecodeExit.toBool]

/-- Witness for c6_boolean_outcome at send return 0 and error code -22. -/
theorem c6_boolean_outcome_witness :
    (audioDecode true false 0 RecvResult.eagain).toBool = false ∧
    (audioDecode true false 0 RecvResult.eofR).toBool = false ∧
    (audioDecode true false 0 (RecvResult.errR (-22))).toBool = false ∧
    (audioDecode true false 0 RecvResult.ok).toBool = true ∧
    (encodeStep true true 0 RecvResult.eofR).1.toBool = false ∧
    (encodeStep true true 0 (RecvResult.errR (-22))).1.toBool = false ∧
    (encodeStep true true 0 RecvResult.eagain).1.toBool = true ∧
    (encodeStep true true 0 RecvResult.ok).1.toBool = true ∧
    (videoDecode true false 0 RecvResult.eagain 1 1).toBool = true :=
  c6_boolean_outcome 0 (le_refl 0) (-22)

/-- Claim C7: at encoder open, each of sample rate, sample format and
channel layout left unspecified by the caller is negotiated to the first
entry of the encoder's advertised list for that parameter, or to the
documented default (44100 Hz, signed 16-bit, stereo) when the encoder
advertises no list; parameters the caller specified are kept unchanged. -/
theorem c7_negotiation (codec : ACodec) (format : AudioFormat) :
    (format.sampleRate ≤ 0 →
      (negotiateFormat codec format).sampleRate =
        (match codec.supported_samplerates with | r :: _ => r | [] => 44100)) ∧
    (0 < format.sampleRate →
      (negotiateFormat codec format).sampleRate = format.sampleRate) ∧
    (format.sampleFormat = SampleFormat.unknown →
      (negotiateFormat codec format).sampleFormat =
        (match codec.sample_fmts with
         | f :: _ => SampleFormat.ff f
         | [] => SampleFormat.s16)) ∧
    (format.sampleFormat ≠ SampleFormat.unknown →
      (negotiateFormat codec format).sampleFormat = format.sampleFormat) ∧
    (format.channelLayout = ChannelLayout.unsupported →
      (negotiateFormat codec format).channelLayout =
        (match codec.channel_layouts with
         | c :: _ => ChannelLayout.ff c
         | [] => ChannelLayout.stereo)) ∧
    (format.channelLayout ≠ ChannelLayout.unsupported →
      (negotiateFormat codec format).channelLayout = format.channelLayout) := by
  obtain ⟨srs, sfs, cls⟩ := codec
  refine ⟨?_, ?_, ?_, ?_, ?_, ?_⟩
  · intro h
    cases srs <;> cases sfs <;> cases cls <;>
      simp [negotiateFormat, h, apply_ite AudioFormat.sampleRate,
        apply_ite AudioFormat.sampleFormat, apply_ite AudioFormat.channelLayout]
  · intro h
    have hn : ¬ format.sampleRate ≤ 0 := not_le.mpr h
    cases srs <;> cases sfs <;> cases cls <;>
      simp [negotiateFormat, hn, apply_ite AudioFormat.sampleRate,
        apply_ite AudioFormat.sampleFormat, apply_ite AudioFormat.channelLayout]
  · intro h
    cases srs <;> cases sfs <;> cases cls <;>
      simp [negotiateFormat, h, apply_ite AudioFormat.sampleRate,
        apply_ite AudioFormat.sampleFormat, apply_ite AudioFormat.channelLayout]
  · intro h
    cases srs <;> cases sfs <;> cases cls <;>
      simp [negotiateFormat, h, apply_ite AudioFormat.sampleRate,
        apply_ite AudioFormat.sampleFormat, apply_ite AudioFormat.channelLayout]
  · intro h
    cases srs <;> cases sfs <;> cases cls <;>
      simp [negotiateFormat, h, apply_ite AudioFormat.sampleRate,
        apply_ite AudioFormat.sampleFormat, apply_ite AudioFormat.channelLayout]
  · intro h
    cases srs <;> cases sfs <;> cases cls <;>
      simp [negotiateFormat, h, apply_ite AudioFormat.sampleRate,
        apply_ite AudioFormat.sampleFormat, apply_ite AudioFormat.channelLayout]

/-- Witness for c7_negotiation: a fully unspecified format against a codec
advertising 48000 Hz first takes that rate. -/
theorem c7_negotiation_witness :
    (negotiateFormat ⟨[48000], [8], [3]⟩
      ⟨0, SampleFormat.unknown, ChannelLayout.unsupported⟩).sampleRate = 48000 :=
  (c7_negotiation ⟨[48000], [8], [3]⟩
    ⟨0, SampleFormat.unknown, ChannelLayout.unsupported⟩).1 (by norm_num)

/-- Claim C8: the working buffer is sized frame_size x bytes-per-sample x
channels x 2 + 200, where a codec-reported frame size of at most 1 forces
frame_size 16384 with the codec's raw-PCM byte size as sample size, and the
final size is never below AV_INPUT_BUFFER_MIN_SIZE.  The hypothesis hdeg
restricts the degenerate combination of a frame size at most 1 with a
non-raw-PCM codec to realistic sample sizes and channel counts (FFmpeg
formats have at most 8 bytes per sample and 64 channels), where both
computations collapse to the floor. -/
theorem c8_buffer_sizing (fs bits bps ch : Int)
    (hbps : 0 ≤ bps) (hch : 0 ≤ ch)
    (hdeg : fs ≤ 1 →
      0 < bits / 8 ∨ bps * ch * 2 + 200 ≤ AV_INPUT_BUFFER_MIN_SIZE) :
    (bufferSizing fs bits bps ch).2 = claimBufferSize fs bits bps ch ∧
    AV_INPUT_BUFFER_MIN_SIZE ≤ (bufferSizing fs bits bps ch).2 := by
  constructor
  · by_cases hfs : fs ≤ 1
    · by_cases hpcm : bits / 8 = 0
      · have hsmall : bps * ch * 2 + 200 ≤ AV_INPUT_BUFFER_MIN_SIZE := by
          rcases hdeg hfs with h | h
          · omega
          · exact h
        have h1 : fs * bps * ch * 2 + 200 ≤ AV_INPUT_BUFFER_MIN_SIZE := by
          have hm : fs * (bps * ch * 2) ≤ 1 * (bps * ch * 2) :=
            mul_le_mul_of_nonneg_right hfs (by positivity)
          nlinarith
        simp only [bufferSizing, claimBufferSize, if_pos hfs, hpcm]
        simp only [ne_eq, not_true_eq_false, if_false, ite_not]
        rw [max_eq_right h1, max_eq_right (by nlinarith)]
      · simp [bufferSizing, claimBufferSize, if_pos hfs, hpcm]
    · simp [bufferSizing, claimBufferSize, if_neg hfs, hfs]
  · unfold bufferSizing
    by_cases hfs : fs ≤ 1 <;> by_cases hpcm : bits / 8 = 0 <;>
      simp [hfs, hpcm, le_max_right]

/-- Witness for c8_buffer_sizing: a codec-reported frame size of 1024 with
2-byte samples over 2 channels gives 1024*2*2*2+200 = 8392, which is floored
to AV_INPUT_BUFFER_MIN_SIZE = 16384. -/
theorem c8_buffer_sizing_witness :
    (bufferSizing 1024 0 2 2).2 = claimBufferSize 1024 0 2 2 ∧
    AV_INPUT_BUFFER_MIN_SIZE ≤ (bufferSizing 1024 0 2 2).2 :=
  c8_buffer_sizing 1024 0 2 2 (by norm_num) (by norm_num) (by omega)

/-- Claim C9: for an encode call whose submission succeeds, a needs-more-
input retrieval clears the stored packet and returns exactly the validity of
the submitted frame (true for a valid frame, false for the null end-of-stream
submission), and a fully-drained retrieval clears the stored packet and
returns false. -/
theorem c9_encode_retrieval (sendRet : Int) (hs : 0 ≤ sendRet)
    (frameValid : Bool) :
    encodeStep frameValid true sendRet RecvResult.eagain =
      (EncodeExit.needMoreFrames frameValid, PacketSlot.cleared) ∧
    (encodeStep frameValid true sendRet RecvResult.eagain).1.toBool = frameValid ∧
    encodeStep frameValid true sendRet RecvResult.eofR =
      (EncodeExit.drainedE, PacketSlot.cleared) ∧
    (encodeStep frameValid true sendRet RecvResult.eofR).1.toBool = false := by
  have hns : ¬ sendRet < 0 := not_lt.mpr hs
  simp [encodeStep, hns, EncodeExit.toBool]

/-- Witness for c9_encode_retrieval with a valid frame and send return 0. -/
theorem c9_encode_retrieval_witness :
    encodeStep true true 0 RecvResult.eagain =
      (EncodeExit.needMoreFrames true, PacketSlot.cleared) ∧
    (encodeStep true true 0 RecvResult.eagain).1.toBool = true ∧
    encodeStep true true 0 RecvResult.eofR =
      (EncodeExit.drainedE, PacketSlot.cleared) ∧
    (encodeStep true true 0 RecvResult.eofR).1.toBool = false :=
  c9_encode_retrieval 0 (le_refl 0) true

/-- Claim C10: the transient AVFrame submitted for a valid input frame
declares exactly the encoder's negotiated frame_size samples per channel,
every plane's linesize is frame_size x sample stride, and the caller's own
samples-per-channel count is never consulted: changing it leaves the built
frame unchanged. -/
theorem c10_transient_frame (frame_size : Int) (fr : AudioFrameIn) (n : Int) :
    (buildEncFrame frame_size fr).nbSamples = frame_size ∧
    ((buildEncFrame frame_size fr).linesize.all
      (fun l => l == frame_size * encSampleStride fr)) = true ∧
    buildEncFrame frame_size { fr with samplesPerChannel := n } =
      buildEncFrame frame_size fr := by
  refine ⟨rfl, ?_, rfl⟩
  simp only [buildEncFrame, List.all_eq_true]
  intro l hl
  have h := List.eq_of_mem_replicate hl
  simp [h]

end QtAV
